import Mathlib

/-!
Verification of the Tempest VIP station monitor against its specification.

The program polls weather stations per account, decodes device diagnostics
into sensor-failure sets, diffs them against a persisted per-station cache
snapshot, emits alerts on transitions, and reports metrics.

The embedding below follows the current wiring of the source:
`processUser` from `src/index.js` (lines 49-210, the copy using the `Slack`
class), `loadCacheFor`/`buildStationCacheEntry` from `src/cache.js`
(lines 14-49, the copy that exports `buildStationCacheEntry`),
`buildMetricLines` from `src/unnamed/part_001` (the metrics module whose
parameter list matches the call at `src/index.js` lines 196-204), and
`processDevices` from `src/unnamed/part_003` (lines 36-60).

Cache entries are dynamically shaped JavaScript values (legacy scalar
strings, structured objects, per-device maps), so we embed a small model
of JavaScript values (`JVal`) with the exact truthiness, property-access,
`Object.values`, `Array.isArray` and `flatMap` semantics the source relies
on.
-/

/-- A JavaScript value, restricted to the shapes that flow through the
station cache and diagnostics processing. -/
inductive JVal where
  | vUndef : JVal
  | vBool (b : Bool) : JVal
  | vNum (n : Int) : JVal
  | vStr (s : String) : JVal
  | vArr (elems : List JVal) : JVal
  | vObj (fields : List (String × JVal)) : JVal

/-- JavaScript truthiness: `undefined`, `false`, `0` and `""` are falsy;
arrays and objects (even empty ones) are truthy. -/
def truthy : JVal → Bool
  | JVal.vUndef => false
  | JVal.vBool b => b
  | JVal.vNum n => !(n == 0)
  | JVal.vStr s => !(s == "")
  | JVal.vArr _ => true
  | JVal.vObj _ => true

/-- Property access `v[k]`: field lookup on objects, `undefined` on
everything else (the source only reads `offline`/`failures`/serial keys,
none of which exist on primitives). -/
def getField (v : JVal) (k : String) : JVal :=
  match v with
  | JVal.vObj fs => ((fs.find? (fun p => p.1 == k)).map (fun p => p.2)).getD JVal.vUndef
  | _ => JVal.vUndef

/-- `Object.values(v)`: field values of an object in insertion order;
for a string, its characters (each a one-character string); empty for
other primitives. -/
def objValues (v : JVal) : List JVal :=
  match v with
  | JVal.vObj fs => fs.map (fun p => p.2)
  | JVal.vStr s => s.toList.map (fun c => JVal.vStr (String.mk [c]))
  | _ => []

/-- `Array.isArray`. -/
def isArray : JVal → Bool
  | JVal.vArr _ => true
  | _ => false

/-- One flattening step of `Array.prototype.flatMap`: an array is spliced
in, any other value is kept as a single element. -/
def jsFlatten (v : JVal) : List JVal :=
  match v with
  | JVal.vArr l => l
  | v => [v]

/-- `list.includes(s)` for a JavaScript string `s` against a list of
values: SameValueZero equality, which holds only against equal strings. -/
def includesStr (l : List JVal) (s : String) : Bool :=
  l.any (fun v =>
    match v with
    | JVal.vStr t => t == s
    | _ => false)

/-- A JavaScript object used as a string-keyed map (the per-account
station cache, and the fields of a cache entry). Keys are unique by
construction of the update operations below. -/
abbrev JMap := List (String × JVal)

/-- `m[k]` as an `Option`. -/
def jLookup (m : JMap) (k : String) : Option JVal :=
  (m.find? (fun p => p.1 == k)).map (fun p => p.2)

/-- `m[k]` with JavaScript semantics: `undefined` when the key is absent. -/
def jsIndex (m : JMap) (k : String) : JVal :=
  (jLookup m k).getD JVal.vUndef

/-- Property assignment `m[k] = v`: overwrite in place when the key
exists, append otherwise (JavaScript property-insertion order). -/
def setField (m : JMap) (k : String) (v : JVal) : JMap :=
  if m.any (fun p => p.1 == k) then
    m.map (fun p => if p.1 == k then (k, v) else p)
  else
    m ++ [(k, v)]

/-- `delete m[k]`. -/
def deleteField (m : JMap) (k : String) : JMap :=
  m.filter (fun p => !(p.1 == k))

/-- A sensor failure as reported by the decoder:
`{ sensor: def.label, reason: f.failedText || def.label }`
(`src/unnamed/part_003` line 52). -/
structure SensorFailure where
  sensor : String
  reason : String
deriving DecidableEq, Repr

/-- The decoder's per-device result (`src/unnamed/part_003` line 58):
`{ device_id, serial, deviceType, rawStatus, sensorStatus, failures }`. -/
structure DeviceStatusResult where
  device_id : Int
  serial : String
  deviceType : String
  rawStatus : Nat
  sensorStatus : String
  failures : List SensorFailure
deriving DecidableEq, Repr

/-- A station as returned by the station-list fetch
(`{station_id, name, state}`; `state == 1` means online). -/
structure Station where
  station_id : Int
  name : String
  state : Int
deriving DecidableEq, Repr

/-- One bitmask flag definition of the Flag Registry:
`{ flag (single-bit mask), type ('error' or 'warning'), failedText }`. -/
structure SensorFlagDef where
  flag : Nat
  ftype : String
  failedText : String
deriving DecidableEq, Repr

/-- One sensor of a device type: a label and its flag definitions. -/
structure SensorDef where
  label : String
  flags : List SensorFlagDef
deriving DecidableEq, Repr

/-- Modelled from the spec: the Flag Registry of `DeviceStatus.js`, which
is absent from `src/` (only its callers are present). `§4.1`:
`flagsFor(deviceType)` returns the ordered sensor definitions of a device
type, and the empty sequence for unknown device types (the source reads
`ds.sensors[deviceType] || []`). We model it as a total function into
lists, quantified over in the theorems. -/
def Registry := String → List SensorDef

/-- Modelled from the spec: `DeviceStatus._hasSensorError` of the missing
`DeviceStatus.js`. `§4.2`: test `rawStatus & bit != 0` (bitwise AND). -/
def hasSensorError (rawStatus : Nat) (flag : Nat) : Bool :=
  !(rawStatus &&& flag == 0)

/-- Does any flag of severity `sev` of any sensor definition match the raw
status word? -/
def anyFlagMatch (defs : List SensorDef) (rawStatus : Nat) (sev : String) : Bool :=
  defs.any (fun d => d.flags.any (fun f => f.ftype == sev && hasSensorError rawStatus f.flag))

/-- Modelled from the spec: `DeviceStatus.findStatus` of the missing
`DeviceStatus.js`. `§4.2` classification precedence (highest wins): any
`error` match yields `failure`; else any `warning` match yields
`warning`; else `ok`. Unknown device types have no definitions and yield
`ok`. -/
def findStatus (sensors : Registry) (rawStatus : Nat) (deviceType : String) : String :=
  if anyFlagMatch (sensors deviceType) rawStatus "error" then "failure"
  else if anyFlagMatch (sensors deviceType) rawStatus "warning" then "warning"
  else "ok"

/-- A raw device diagnostic `{device_id, serial_number, sensor_status}`. -/
structure RawDevice where
  device_id : Int
  serial_number : String
  sensor_status : Nat
deriving DecidableEq, Repr

/-- Substring test over explicit character lists (JavaScript
`String.prototype.includes`). -/
def strContainsSub (s pat : String) : Bool :=
  (List.range (s.toList.length + 1)).any (fun i => pat.toList.isPrefixOf (s.toList.drop i))

/-- `serial.split('-')[0]`: the device type is the text before the first
dash of the serial number (the whole serial when it has no dash). -/
def deviceTypeOf (serial : String) : String :=
  String.mk (serial.toList.takeWhile (fun c => !(c == '-')))

/-- `serial_number.includes('HB')`: heartbeat hardware is excluded. -/
def serialHasHB (serial : String) : Bool :=
  strContainsSub serial "HB"

/-- `processDevices` (`src/unnamed/part_003` lines 36-60): drop heartbeat
devices, classify each remaining device, and collect the failures from
`error`-severity flags only when the classification is `failure`. -/
def processDevices (sensors : Registry) (devices : List RawDevice) : List DeviceStatusResult :=
  (devices.filter (fun d => !serialHasHB d.serial_number)).map (fun device =>
    let serial := device.serial_number
    let rawStatus := device.sensor_status
    let deviceType := deviceTypeOf serial
    let sensorStatus := findStatus sensors rawStatus deviceType
    let failures :=
      if sensorStatus == "failure" then
        (sensors deviceType).flatMap (fun d =>
          (d.flags.filter (fun f => f.ftype == "error" && hasSensorError rawStatus f.flag)).map
            (fun f => { sensor := d.label,
                        reason := if f.failedText == "" then d.label else f.failedText }))
      else []
    { device_id := device.device_id, serial := serial, deviceType := deviceType,
      rawStatus := rawStatus, sensorStatus := sensorStatus, failures := failures })

/-- The devices of a station whose classification is `failure`
(`src/index.js` line 106). -/
def failuresOnlyOf (statuses : List DeviceStatusResult) : List DeviceStatusResult :=
  statuses.filter (fun ds => ds.sensorStatus == "failure")

/-- The station's current failed-sensor list, flattened across its
`failure`-classified devices (`src/index.js` line 107). -/
def currentFailuresOf (statuses : List DeviceStatusResult) : List String :=
  (failuresOnlyOf statuses).flatMap (fun ds => ds.failures.map (fun f => f.sensor))

/-- The per-device sub-object a cache entry stores for a device
(`src/cache.js` lines 42-46). -/
def deviceCacheObj (ds : DeviceStatusResult) : JVal :=
  JVal.vObj [("failures", JVal.vArr (ds.failures.map (fun f => JVal.vStr f.sensor))),
             ("failureCount", JVal.vNum (if ds.failures.length > 0 then 1 else 0))]

/-- `buildStationCacheEntry` (`src/cache.js` lines 39-49): an object with
an `offline` boolean and one sub-object per device serial. -/
def buildStationCacheEntry (statuses : List DeviceStatusResult) (isOffline : Bool) : JVal :=
  JVal.vObj (statuses.foldl (fun fs ds => setField fs ds.serial (deviceCacheObj ds))
    [("offline", JVal.vBool isOffline)])

/-- The pure core of `loadCacheFor` (`src/cache.js` lines 14-27): the
parsed JSON is returned unchanged — this copy performs no normalization
of legacy entries. -/
def loadCachePure (raw : JMap) : JMap := raw

/-- `const prevEntry = cache[id] || {}` (`src/index.js` line 91). -/
def prevEntryOf (cache : JMap) (id : String) : JVal :=
  if truthy (jsIndex cache id) then jsIndex cache id else JVal.vObj []

/-- `const wasOffline = prevEntry.offline` (`src/index.js` line 92), used
as a truthiness test. -/
def wasOfflineOf (prevEntry : JVal) : Bool :=
  truthy (getField prevEntry "offline")

/-- The previous failure list as `processUser` reads it back
(`src/index.js` lines 135-139): the `failures` field when it is an array,
otherwise the flattened `failures` of every field value that carries a
truthy `failures` property. -/
def oldFailuresOf (prevEntry : JVal) : List JVal :=
  if isArray (getField prevEntry "failures") then
    jsFlatten (getField prevEntry "failures")
  else
    ((objValues prevEntry).filter (fun v => truthy (getField v "failures"))).flatMap
      (fun v => jsFlatten (getField v "failures"))

/-- `newFailures = currentFailures.filter(s => !oldFailures.includes(s))`
(`src/index.js` line 140). -/
def newFailuresOf (prevEntry : JVal) (statuses : List DeviceStatusResult) : List String :=
  (currentFailuresOf statuses).filter (fun s => !(includesStr (oldFailuresOf prevEntry) s))

/-- An alert side effect of one station's processing (the `Slack` calls of
`src/index.js` lines 142-179). -/
inductive AlertEvent where
  | sensorFailure (serial : String) (sensors : List String) : AlertEvent
  | recovery : AlertEvent
  | nowOffline (failedSensors : List String) : AlertEvent
deriving DecidableEq, Repr

/-- Assignment into the string-keyed `deviceFailuresMap`
(`src/index.js` line 149): overwrite in place or append. -/
def setAssoc (m : List (String × List String)) (k : String) (v : List String) :
    List (String × List String) :=
  if m.any (fun p => p.1 == k) then
    m.map (fun p => if p.1 == k then (k, v) else p)
  else
    m ++ [(k, v)]

/-- The grouping of new failures by device serial (`src/index.js` lines
143-151): for each `failure`-classified device, its failing sensors that
are in `newFailures`; devices with none are skipped. -/
def deviceFailuresMapOf (failuresOnly : List DeviceStatusResult) (newFailures : List String) :
    List (String × List String) :=
  failuresOnly.foldl (fun m ds =>
    let newDeviceFailures := (ds.failures.map (fun f => f.sensor)).filter
      (fun sensor => newFailures.contains sensor)
    if newDeviceFailures.isEmpty then m else setAssoc m ds.serial newDeviceFailures) []

/-- What one station's processing produced: the cache write (`some entry`)
or deletion (`none`), the alerts sent, the sensors counted into the
per-sensor failure tallies, and the healthy/offline counter increments. -/
structure StationOutcome where
  cacheAction : Option JVal
  alerts : List AlertEvent
  countsSensors : List String
  healthyInc : Bool
  offlineInc : Bool

/-- The per-station body of `processUser` (`src/index.js` lines 88-183):
counters are bumped first (sensor failures only when the station is
offline, line 118; healthy only when online with no failures, line 128),
then the branch chain runs: (A) online with failures — write entry, alert
the grouped new failures; (B) online and previously offline — delete the
entry, send recovery; (C) online — write entry; (D) offline and
previously online — send offline alert; offline fallback — write entry. -/
def processStation (alertsOn : Bool) (prevEntry : JVal) (st : Station)
    (statuses : List DeviceStatusResult) : StationOutcome :=
  let wasOffline := wasOfflineOf prevEntry
  let currentFailures := currentFailuresOf statuses
  let isOffline := !(st.state == 1)
  let countsSensors := if isOffline then currentFailures else []
  let healthyInc := !isOffline && currentFailures.isEmpty
  if !isOffline && !currentFailures.isEmpty then
    let newFailures := newFailuresOf prevEntry statuses
    let alerts :=
      if alertsOn && !newFailures.isEmpty then
        (deviceFailuresMapOf (failuresOnlyOf statuses) newFailures).map
          (fun p => AlertEvent.sensorFailure p.1 p.2)
      else []
    { cacheAction := some (buildStationCacheEntry statuses isOffline), alerts := alerts,
      countsSensors := countsSensors, healthyInc := healthyInc, offlineInc := isOffline }
  else if !isOffline && wasOffline then
    { cacheAction := none, alerts := if alertsOn then [AlertEvent.recovery] else [],
      countsSensors := countsSensors, healthyInc := healthyInc, offlineInc := isOffline }
  else if !isOffline then
    { cacheAction := some (buildStationCacheEntry statuses isOffline), alerts := [],
      countsSensors := countsSensors, healthyInc := healthyInc, offlineInc := isOffline }
  else
    let alerts :=
      if !wasOffline && alertsOn then [AlertEvent.nowOffline currentFailures] else []
    { cacheAction := some (buildStationCacheEntry statuses isOffline), alerts := alerts,
      countsSensors := countsSensors, healthyInc := healthyInc, offlineInc := isOffline }

/-- `sensorFailureCounts[k] = (sensorFailureCounts[k] || 0) + 1`
(`src/index.js` line 121). -/
def bump (m : List (String × Nat)) (k : String) : List (String × Nat) :=
  if m.any (fun p => p.1 == k) then
    m.map (fun p => if p.1 == k then (p.1, p.2 + 1) else p)
  else
    m ++ [(k, 1)]

/-- Bump a counter map once per sensor occurrence, in order. -/
def bumpMany (m : List (String × Nat)) (ks : List String) : List (String × Nat) :=
  ks.foldl bump m

/-- The monitored sensor keys (`src/index.js` lines 38-46). -/
def SENSOR_KEYS : List String :=
  ["air_temperature", "rh", "lightning", "wind", "precip", "light_uv", "pressure"]

/-- The per-account mutable state threaded through the station loop of
`processUser`: the new cache image, the alert log (tagged with the
station id), and the counters. -/
structure CycleState where
  newCache : JMap
  events : List (String × AlertEvent)
  healthyCount : Nat
  offlineCount : Nat
  sensorFailureCounts : List (String × Nat)

/-- The state at the top of the loop: `newCache = { ...cache }` and the
per-sensor counters seeded to zero for every monitored key
(`src/index.js` lines 57-60 and 82). -/
def initialCycleState (cache : JMap) : CycleState :=
  { newCache := cache, events := [], healthyCount := 0, offlineCount := 0,
    sensorFailureCounts := SENSOR_KEYS.map (fun k => (k, 0)) }

/-- One iteration of the station loop: read the previous entry from the
loaded cache, process the station, apply the cache write or deletion to
the new cache image, append the alerts and bump the counters. -/
def stepStation (alertsOn : Bool) (cache : JMap) (s : CycleState) (st : Station)
    (statuses : List DeviceStatusResult) : CycleState :=
  let id := toString st.station_id
  let o := processStation alertsOn (prevEntryOf cache id) st statuses
  { newCache :=
      match o.cacheAction with
      | some entry => setField s.newCache id entry
      | none => deleteField s.newCache id,
    events := s.events ++ o.alerts.map (fun e => (id, e)),
    healthyCount := s.healthyCount + (if o.healthyInc then 1 else 0),
    offlineCount := s.offlineCount + (if o.offlineInc then 1 else 0),
    sensorFailureCounts := bumpMany s.sensorFailureCounts o.countsSensors }

/-- The station loop of `processUser` over the fetched station list, each
station paired with the decoder results of its diagnostics fetch (an
empty list when diagnostics were unavailable). -/
def processUserPure (alertsOn : Bool) (cache : JMap)
    (stations : List (Station × List DeviceStatusResult)) : CycleState :=
  stations.foldl (fun s p => stepStation alertsOn cache s p.1 p.2) (initialCycleState cache)

/-- The transition categories of the spec's state machine (`§4.5`). -/
inductive TransitionCategory where
  | NewFailure : TransitionCategory
  | Recovered : TransitionCategory
  | StillHealthy : TransitionCategory
  | NewlyOffline : TransitionCategory
  | StillOffline : TransitionCategory
deriving DecidableEq, Repr

/-- The spec's transition category of one station under the source's
branch order (`src/index.js` lines 132-182): the online-with-failures
branch is checked first and counts as `NewFailure` exactly when it has
sensors to announce (the spec's Scenario C reads the no-new-sensors case
as `StillHealthy`); then recovery, then healthy-online, then the offline
branches split on `wasOffline`. -/
def classifyStation (prevEntry : JVal) (state : Int)
    (statuses : List DeviceStatusResult) : TransitionCategory :=
  let wasOffline := wasOfflineOf prevEntry
  let currentFailures := currentFailuresOf statuses
  let isOffline := !(state == 1)
  if !isOffline && !currentFailures.isEmpty then
    if !(newFailuresOf prevEntry statuses).isEmpty then TransitionCategory.NewFailure
    else TransitionCategory.StillHealthy
  else if !isOffline && wasOffline then TransitionCategory.Recovered
  else if !isOffline then TransitionCategory.StillHealthy
  else if !wasOffline then TransitionCategory.NewlyOffline
  else TransitionCategory.StillOffline

/-- The sensors carried by the sensor-failure alerts of an alert list. -/
def alertedSensorsOf (alerts : List AlertEvent) : List String :=
  alerts.flatMap (fun e =>
    match e with
    | AlertEvent.sensorFailure _ sensors => sensors
    | _ => [])

/-- The persisted cache after a cycle, as the next cycle will load it
(`saveCacheFor` serializes the map and `loadCacheFor` parses it back
unchanged). -/
def nextCacheOf (alertsOn : Bool) (cache : JMap) (st : Station)
    (statuses : List DeviceStatusResult) : JMap :=
  loadCachePure (stepStation alertsOn cache (initialCycleState cache) st statuses).newCache

/-- The metrics job name (`src/index.js` line 23). -/
def functionName : String := "vip-lambda-julian"

/-- `jsToLower userNameCase()` over the character list (ASCII accounts). -/
def jsToLower (s : String) : String :=
  String.mk (s.toList.map (fun c =>
    if 65 <= c.toNat && c.toNat <= 90 then Char.ofNat (c.toNat + 32) else c))

/-- One metric line
`vip.<accountLower>_station_<metricName>.<jobName>,<timestamp>,<value>`. -/
def mkLine (acct : String) (metric : String) (job : String) (ts : Nat) (v : Nat) : String :=
  s!"vip.{acct}_station_{metric}.{job},{ts},{v}"

/-- `sensorFailureCounts[sensor] || 0` (`src/unnamed/part_001` line 23). -/
def jsNumLookup (counts : List (String × Nat)) (k : String) : Nat :=
  ((counts.find? (fun p => p.1 == k)).map (fun p => p.2)).getD 0

/-- `buildMetricLines` (`src/unnamed/part_001` lines 6-41): the healthy
and offline counts, one failure-count line per key of the per-sensor
counter map, the total of those counters, and the total station count. -/
def buildMetricLines (userName : String) (job : String) (timestamp : Nat)
    (healthyCount offlineCount totalStations : Nat)
    (sensorFailureCounts : List (String × Nat)) : List String :=
  let name := jsToLower userName
  [mkLine name "healthy_count" job timestamp healthyCount,
   mkLine name "offline_count" job timestamp offlineCount]
  ++ (sensorFailureCounts.map (fun p => p.1)).map (fun sensor =>
       mkLine name (sensor ++ "_failure_count") job timestamp
         (jsNumLookup sensorFailureCounts sensor))
  ++ [mkLine name "total_sensor_failure_count" job timestamp
        ((sensorFailureCounts.map (fun p => p.2)).foldl (fun a b => a + b) 0),
      mkLine name "total_count" job timestamp totalStations]

/-- The metrics batch of one account's cycle, as `processUser` builds it
(`src/index.js` lines 193-204): counters from the station loop, the
station-list length, and the cycle timestamp. -/
def cycleMetricLines (alertsOn : Bool) (cache : JMap)
    (stations : List (Station × List DeviceStatusResult))
    (userName : String) (timestamp : Nat) : List String :=
  buildMetricLines userName functionName timestamp
    (processUserPure alertsOn cache stations).healthyCount
    (processUserPure alertsOn cache stations).offlineCount
    stations.length
    (processUserPure alertsOn cache stations).sensorFailureCounts

/-- The `StationSnapshot` shape as the spec's data model defines it:
an object with a boolean `offline` field and a `failures` field that is
an array of sensor-label strings. Stated from the spec's words for
comparison with what the code actually writes. -/
def specStationSnapshotShape (v : JVal) : Bool :=
  match v with
  | JVal.vObj _ =>
    (match getField v "offline" with
     | JVal.vBool _ => true
     | _ => false)
    &&
    (match getField v "failures" with
     | JVal.vArr l => l.all (fun e =>
         match e with
         | JVal.vStr _ => true
         | _ => false)
     | _ => false)
  | _ => false

theorem find?_map_replace (m : JMap) (k : String) (v : JVal)
    (h : m.any (fun p => p.1 == k) = true) :
    (m.map (fun p => if p.1 == k then (k, v) else p)).find? (fun p => p.1 == k)
      = some (k, v) := by
  induction m with
  | nil => simp at h
  | cons a m ih =>
    rw [List.map_cons]
    by_cases ha : (a.1 == k) = true
    · rw [if_pos ha, List.find?_cons_of_pos _ (by simp)]
    · rw [if_neg ha, List.find?_cons_of_neg _ (by simpa using ha)]
      exact ih (by simpa [List.any_cons, ha] using h)

theorem find?_singleton_hit (k : String) (v : JVal) :
    ([(k, v)] : JMap).find? (fun p => p.1 == k) = some (k, v) :=
  List.find?_cons_of_pos _ (by simp)

theorem jLookup_setField_self (m : JMap) (k : String) (v : JVal) :
    jLookup (setField m k v) k = some v := by
  unfold setField
  split
  · rw [jLookup, find?_map_replace _ _ _ (by assumption)]
    rfl
  · rename_i hany
    have hnone : m.find? (fun p => p.1 == k) = none := by
      rw [List.find?_eq_none]
      intro x hx hpx
      exact hany (List.any_eq_true.mpr ⟨x, hx, hpx⟩)
    rw [jLookup, List.find?_append, hnone, find?_singleton_hit]
    rfl

theorem find?_map_replace_ne (m : JMap) (k k' : String) (v : JVal) (h : k' ≠ k) :
    (m.map (fun p => if p.1 == k then (k, v) else p)).find? (fun p => p.1 == k')
      = m.find? (fun p => p.1 == k') := by
  induction m with
  | nil => simp
  | cons a m ih =>
    rw [List.map_cons]
    by_cases ha : (a.1 == k) = true
    · have hak : a.1 = k := beq_iff_eq.mp ha
      have ha' : (a.1 == k') = false := by
        rw [hak]
        exact beq_eq_false_iff_ne.mpr (Ne.symm h)
      rw [if_pos ha,
          List.find?_cons_of_neg _ (by rw [beq_eq_false_iff_ne.mpr (Ne.symm h)]; simp),
          List.find?_cons_of_neg _ (by rw [ha']; simp), ih]
    · rw [if_neg ha]
      by_cases hak' : (a.1 == k') = true
      · simp [List.find?_cons, hak']
      · rw [List.find?_cons_of_neg _ (by simpa using hak'),
            List.find?_cons_of_neg _ (by simpa using hak'), ih]

theorem jLookup_setField_ne (m : JMap) (k k' : String) (v : JVal) (h : k' ≠ k) :
    jLookup (setField m k v) k' = jLookup m k' := by
  unfold setField
  split
  · rw [jLookup, find?_map_replace_ne _ _ _ _ h]
    rfl
  · rw [jLookup, List.find?_append]
    have hone : ([(k, v)] : JMap).find? (fun p => p.1 == k') = none := by
      rw [List.find?_eq_none]
      intro x hx
      simp only [List.mem_singleton] at hx
      subst hx
      rw [beq_eq_false_iff_ne.mpr (Ne.symm h)]
      simp
    rw [hone, jLookup]
    cases m.find? (fun p => p.1 == k') <;> rfl

theorem jLookup_deleteField_self (m : JMap) (k : String) :
    jLookup (deleteField m k) k = none := by
  rw [jLookup, Option.map_eq_none', List.find?_eq_none]
  intro x hx
  have hmem := List.mem_filter.mp hx
  simpa using hmem.2

theorem jLookup_deleteField_ne (m : JMap) (k k' : String) (h : k' ≠ k) :
    jLookup (deleteField m k) k' = jLookup m k' := by
  unfold jLookup deleteField
  induction m with
  | nil => simp
  | cons a m ih =>
    by_cases hak : (a.1 == k) = true
    · have haty : a.1 = k := beq_iff_eq.mp hak
      have ha' : (a.1 == k') = false := by
        rw [haty]
        exact beq_eq_false_iff_ne.mpr (Ne.symm h)
      rw [List.filter_cons_of_neg (by simpa using hak),
          List.find?_cons_of_neg _ (by rw [ha']; simp)]
      exact ih
    · rw [List.filter_cons_of_pos (by simpa using hak)]
      by_cases hak' : (a.1 == k') = true
      · simp [List.find?_cons, hak']
      · rw [List.find?_cons_of_neg _ (by simpa using hak'),
            List.find?_cons_of_neg _ (by simpa using hak')]
        exact ih

theorem setField_fresh (m : JMap) (k : String) (v : JVal)
    (h : ∀ p ∈ m, ¬p.1 = k) :
    setField m k v = m ++ [(k, v)] := by
  unfold setField
  rw [if_neg]
  intro hany
  obtain ⟨p, hp, hpk⟩ := List.any_eq_true.mp hany
  exact h p hp (beq_iff_eq.mp hpk)

theorem setAssoc_fresh (m : List (String × List String)) (k : String) (v : List String)
    (h : ∀ p ∈ m, ¬p.1 = k) :
    setAssoc m k v = m ++ [(k, v)] := by
  unfold setAssoc
  rw [if_neg]
  intro hany
  obtain ⟨p, hp, hpk⟩ := List.any_eq_true.mp hany
  exact h p hp (beq_iff_eq.mp hpk)

theorem getField_vObj (fs : JMap) (k : String) :
    getField (JVal.vObj fs) k
      = ((fs.find? (fun p => p.1 == k)).map (fun p => p.2)).getD JVal.vUndef := rfl

theorem buildEntry_foldl_fresh (statuses : List DeviceStatusResult) (acc : JMap)
    (hfresh : ∀ ds ∈ statuses, ∀ p ∈ acc, ¬p.1 = ds.serial)
    (hnd : (statuses.map (fun ds => ds.serial)).Nodup) :
    statuses.foldl (fun fs ds => setField fs ds.serial (deviceCacheObj ds)) acc
      = acc ++ statuses.map (fun ds => (ds.serial, deviceCacheObj ds)) := by
  induction statuses generalizing acc with
  | nil => simp
  | cons ds statuses ih =>
    rw [List.foldl_cons,
        setField_fresh acc ds.serial (deviceCacheObj ds)
          (fun p hp => hfresh ds (List.mem_cons_self _ _) p hp)]
    rw [List.map_cons] at hnd
    have hnd' := hnd.of_cons
    have hfresh' : ∀ d ∈ statuses, ∀ p ∈ acc ++ [(ds.serial, deviceCacheObj ds)],
        ¬p.1 = d.serial := by
      intro d hd p hp
      rcases List.mem_append.mp hp with hp | hp
      · exact hfresh d (List.mem_cons_of_mem _ hd) p hp
      · simp only [List.mem_singleton] at hp
        subst hp
        intro hcontra
        have : ds.serial ∈ statuses.map (fun x => x.serial) :=
          List.mem_map.mpr ⟨d, hd, hcontra.symm⟩
        exact (List.nodup_cons.mp hnd).1 this
    rw [ih _ hfresh' hnd', List.map_cons]
    simp

theorem buildEntry_eq (statuses : List DeviceStatusResult) (b : Bool)
    (hser : ∀ ds ∈ statuses, ¬ds.serial = "offline")
    (hnd : (statuses.map (fun ds => ds.serial)).Nodup) :
    buildStationCacheEntry statuses b
      = JVal.vObj (("offline", JVal.vBool b)
          :: statuses.map (fun ds => (ds.serial, deviceCacheObj ds))) := by
  unfold buildStationCacheEntry
  rw [buildEntry_foldl_fresh statuses [("offline", JVal.vBool b)]
        (fun ds hds p hp => by
          simp only [List.mem_singleton] at hp
          subst hp
          exact fun hc => hser ds hds hc.symm)
        hnd]
  rfl

theorem getField_deviceCacheObj_failures (ds : DeviceStatusResult) :
    getField (deviceCacheObj ds) "failures"
      = JVal.vArr (ds.failures.map (fun f => JVal.vStr f.sensor)) := by
  simp [deviceCacheObj, getField, List.find?_cons]

theorem getField_buildEntry_offline (statuses : List DeviceStatusResult) (b : Bool)
    (hser : ∀ ds ∈ statuses, ¬ds.serial = "offline")
    (hnd : (statuses.map (fun ds => ds.serial)).Nodup) :
    getField (buildStationCacheEntry statuses b) "offline" = JVal.vBool b := by
  rw [buildEntry_eq statuses b hser hnd]
  simp [getField, List.find?_cons]

theorem getField_buildEntry_failures (statuses : List DeviceStatusResult) (b : Bool)
    (hser : ∀ ds ∈ statuses, ¬ds.serial = "offline" ∧ ¬ds.serial = "failures")
    (hnd : (statuses.map (fun ds => ds.serial)).Nodup) :
    getField (buildStationCacheEntry statuses b) "failures" = JVal.vUndef := by
  rw [buildEntry_eq statuses b (fun ds hds => (hser ds hds).1) hnd]
  have hnone : (("offline", JVal.vBool b)
      :: statuses.map (fun ds => (ds.serial, deviceCacheObj ds))).find?
        (fun p => p.1 == "failures") = none := by
    rw [List.find?_eq_none]
    intro p hp
    rcases List.mem_cons.mp hp with hp | hp
    · subst hp
      simp
    · obtain ⟨ds, hds, hpe⟩ := List.mem_map.mp hp
      subst hpe
      simpa using (hser ds hds).2
  rw [getField_vObj, hnone]
  rfl

theorem oldFailuresOf_buildEntry (statuses : List DeviceStatusResult) (b : Bool)
    (hser : ∀ ds ∈ statuses, ¬ds.serial = "offline" ∧ ¬ds.serial = "failures")
    (hnd : (statuses.map (fun ds => ds.serial)).Nodup) :
    oldFailuresOf (buildStationCacheEntry statuses b)
      = statuses.flatMap (fun ds => ds.failures.map (fun f => JVal.vStr f.sensor)) := by
  unfold oldFailuresOf
  rw [getField_buildEntry_failures statuses b hser hnd]
  rw [if_neg (by simp [isArray])]
  rw [buildEntry_eq statuses b (fun ds hds => (hser ds hds).1) hnd]
  have hvals : objValues (JVal.vObj (("offline", JVal.vBool b)
      :: statuses.map (fun ds => (ds.serial, deviceCacheObj ds))))
      = JVal.vBool b :: statuses.map deviceCacheObj := by
    simp [objValues, Function.comp]
  rw [hvals]
  have hhead : truthy (getField (JVal.vBool b) "failures") = false := rfl
  rw [List.filter_cons_of_neg (by simp [hhead])]
  have hkeep : ∀ v ∈ statuses.map deviceCacheObj,
      (truthy (getField v "failures")) = true := by
    intro v hv
    obtain ⟨ds, _, hve⟩ := List.mem_map.mp hv
    subst hve
    rw [getField_deviceCacheObj_failures]
    rfl
  rw [List.filter_eq_self.mpr hkeep, List.flatMap_map]
  apply List.flatMap_congr
  intro ds _
  rw [getField_deviceCacheObj_failures]
  rfl

theorem includesStr_iff (l : List JVal) (s : String) :
    includesStr l s = true ↔ JVal.vStr s ∈ l := by
  unfold includesStr
  rw [List.any_eq_true]
  constructor
  · rintro ⟨v, hv, hmatch⟩
    cases v with
    | vStr t =>
      have : t = s := by simpa using hmatch
      subst this
      exact hv
    | vUndef => simp at hmatch
    | vBool b => simp at hmatch
    | vNum n => simp at hmatch
    | vArr l => simp at hmatch
    | vObj fs => simp at hmatch
  · intro hmem
    exact ⟨JVal.vStr s, hmem, by simp⟩

theorem mem_currentFailures_vStr_mem (statuses : List DeviceStatusResult) (x : String)
    (h : x ∈ currentFailuresOf statuses) :
    JVal.vStr x ∈ statuses.flatMap (fun ds => ds.failures.map (fun f => JVal.vStr f.sensor)) := by
  unfold currentFailuresOf failuresOnlyOf at h
  obtain ⟨ds, hds, hx⟩ := List.mem_flatMap.mp h
  obtain ⟨f, hf, hfx⟩ := List.mem_map.mp hx
  exact List.mem_flatMap.mpr ⟨ds, (List.mem_filter.mp hds).1,
    List.mem_map.mpr ⟨f, hf, by rw [hfx]⟩⟩

theorem flatMap_failures_of_inv (statuses : List DeviceStatusResult)
    (hinv : ∀ ds ∈ statuses, ¬ds.sensorStatus = "failure" → ds.failures = []) :
    statuses.flatMap (fun ds => ds.failures.map (fun f => JVal.vStr f.sensor))
      = (currentFailuresOf statuses).map JVal.vStr := by
  unfold currentFailuresOf failuresOnlyOf
  rw [List.map_flatMap]
  induction statuses with
  | nil => rfl
  | cons ds statuses ih =>
    have ih' := ih (fun d hd => hinv d (List.mem_cons_of_mem _ hd))
    by_cases hds : (ds.sensorStatus == "failure") = true
    · simp only [List.flatMap_cons, List.filter_cons, hds, if_true, ih']
      simp [List.map_map]
    · have hds' : (ds.sensorStatus == "failure") = false := by simpa using hds
      have hempty : ds.failures = [] := hinv ds (List.mem_cons_self _ _) (by simpa using hds)
      simp only [List.flatMap_cons, List.filter_cons, hds', if_false, hempty]
      simpa using ih'

theorem dfm_foldl_flatten (nf : List String) (fo : List DeviceStatusResult)
    (acc : List (String × List String))
    (hacc : ∀ ds ∈ fo, ∀ p ∈ acc, ¬p.1 = ds.serial)
    (hnd : (fo.map (fun ds => ds.serial)).Nodup) :
    (fo.foldl (fun m ds =>
        let newDeviceFailures := (ds.failures.map (fun f => f.sensor)).filter
          (fun sensor => nf.contains sensor)
        if newDeviceFailures.isEmpty then m else setAssoc m ds.serial newDeviceFailures)
      acc).flatMap (fun p => p.2)
      = acc.flatMap (fun p => p.2)
        ++ fo.flatMap (fun ds => (ds.failures.map (fun f => f.sensor)).filter
             (fun sensor => nf.contains sensor)) := by
  induction fo generalizing acc with
  | nil => simp
  | cons ds fo ih =>
    rw [List.map_cons] at hnd
    have hnd' := hnd.of_cons
    rw [List.foldl_cons, List.flatMap_cons]
    by_cases hempty :
        ((ds.failures.map (fun f => f.sensor)).filter (fun sensor => nf.contains sensor)).isEmpty = true
    · rw [if_pos hempty]
      rw [List.isEmpty_iff.mp hempty]
      rw [ih acc (fun d hd p hp => hacc d (List.mem_cons_of_mem _ hd) p hp) hnd']
      simp
    · rw [if_neg hempty]
      rw [setAssoc_fresh acc ds.serial _
            (fun p hp => hacc ds (List.mem_cons_self _ _) p hp)]
      have hacc' : ∀ d ∈ fo, ∀ p ∈ acc
          ++ [(ds.serial, (ds.failures.map (fun f => f.sensor)).filter
                (fun sensor => nf.contains sensor))], ¬p.1 = d.serial := by
        intro d hd p hp
        rcases List.mem_append.mp hp with hp | hp
        · exact hacc d (List.mem_cons_of_mem _ hd) p hp
        · simp only [List.mem_singleton] at hp
          subst hp
          intro hcontra
          have : ds.serial ∈ fo.map (fun x => x.serial) :=
            List.mem_map.mpr ⟨d, hd, hcontra.symm⟩
          exact (List.nodup_cons.mp hnd).1 this
      rw [ih _ hacc' hnd']
      simp

theorem dfm_flatten (fo : List DeviceStatusResult) (nf : List String)
    (hnd : (fo.map (fun ds => ds.serial)).Nodup) :
    (deviceFailuresMapOf fo nf).flatMap (fun p => p.2)
      = fo.flatMap (fun ds => (ds.failures.map (fun f => f.sensor)).filter
           (fun sensor => nf.contains sensor)) := by
  unfold deviceFailuresMapOf
  rw [dfm_foldl_flatten nf fo [] (fun ds _ p hp => by simp at hp) hnd]
  rfl

theorem flatMap_filter_comm (l : List DeviceStatusResult) (p : String → Bool) :
    l.flatMap (fun ds => (ds.failures.map (fun f => f.sensor)).filter p)
      = (l.flatMap (fun ds => ds.failures.map (fun f => f.sensor))).filter p := by
  induction l with
  | nil => rfl
  | cons ds l ih => simp [List.flatMap_cons, List.filter_append, ih]

theorem isEmpty_false_of_ne_nil (l : List String) (h : ¬l = []) : l.isEmpty = false := by
  rw [Bool.eq_false_iff]
  intro hcontra
  exact h (List.isEmpty_iff.mp hcontra)

theorem processStation_online_failures (a : Bool) (pe : JVal) (st : Station)
    (sts : List DeviceStatusResult) (hstate : st.state = 1)
    (hcf : ¬currentFailuresOf sts = []) :
    processStation a pe st sts =
      { cacheAction := some (buildStationCacheEntry sts false),
        alerts :=
          if a && !(newFailuresOf pe sts).isEmpty then
            (deviceFailuresMapOf (failuresOnlyOf sts) (newFailuresOf pe sts)).map
              (fun p => AlertEvent.sensorFailure p.1 p.2)
          else [],
        countsSensors := [], healthyInc := false, offlineInc := false } := by
  have hne := isEmpty_false_of_ne_nil _ hcf
  simp [processStation, hstate, hne]

theorem processStation_recovered (a : Bool) (pe : JVal) (st : Station)
    (sts : List DeviceStatusResult) (hstate : st.state = 1)
    (hcf : currentFailuresOf sts = []) (hw : wasOfflineOf pe = true) :
    processStation a pe st sts =
      { cacheAction := none, alerts := if a then [AlertEvent.recovery] else [],
        countsSensors := [], healthyInc := true, offlineInc := false } := by
  simp [processStation, hstate, hcf, hw]

theorem processStation_healthy (a : Bool) (pe : JVal) (st : Station)
    (sts : List DeviceStatusResult) (hstate : st.state = 1)
    (hcf : currentFailuresOf sts = []) (hw : wasOfflineOf pe = false) :
    processStation a pe st sts =
      { cacheAction := some (buildStationCacheEntry sts false), alerts := [],
        countsSensors := [], healthyInc := true, offlineInc := false } := by
  simp [processStation, hstate, hcf, hw]

theorem processStation_offline (a : Bool) (pe : JVal) (st : Station)
    (sts : List DeviceStatusResult) (hstate : ¬st.state = 1) :
    processStation a pe st sts =
      { cacheAction := some (buildStationCacheEntry sts true),
        alerts :=
          if !wasOfflineOf pe && a then [AlertEvent.nowOffline (currentFailuresOf sts)]
          else [],
        countsSensors := currentFailuresOf sts, healthyInc := false,
        offlineInc := true } := by
  have hne : (st.state == 1) = false := beq_eq_false_iff_ne.mpr hstate
  simp [processStation, hne]

theorem classify_online_failures (pe : JVal) (state : Int)
    (sts : List DeviceStatusResult) (hstate : state = 1)
    (hcf : ¬currentFailuresOf sts = []) :
    classifyStation pe state sts =
      (if !(newFailuresOf pe sts).isEmpty then TransitionCategory.NewFailure
       else TransitionCategory.StillHealthy) := by
  have hne := isEmpty_false_of_ne_nil _ hcf
  simp [classifyStation, hstate, hne]

theorem classify_recovered (pe : JVal) (state : Int)
    (sts : List DeviceStatusResult) (hstate : state = 1)
    (hcf : currentFailuresOf sts = []) (hw : wasOfflineOf pe = true) :
    classifyStation pe state sts = TransitionCategory.Recovered := by
  simp [classifyStation, hstate, hcf, hw]

theorem classify_healthy (pe : JVal) (state : Int)
    (sts : List DeviceStatusResult) (hstate : state = 1)
    (hcf : currentFailuresOf sts = []) (hw : wasOfflineOf pe = false) :
    classifyStation pe state sts = TransitionCategory.StillHealthy := by
  simp [classifyStation, hstate, hcf, hw]

theorem classify_offline (pe : JVal) (state : Int)
    (sts : List DeviceStatusResult) (hstate : ¬state = 1) :
    classifyStation pe state sts =
      (if wasOfflineOf pe then TransitionCategory.StillOffline
       else TransitionCategory.NewlyOffline) := by
  have hne : (state == 1) = false := beq_eq_false_iff_ne.mpr hstate
  by_cases hw : wasOfflineOf pe = true
  · simp [classifyStation, hne, hw]
  · have hw' : wasOfflineOf pe = false := by simpa using hw
    simp [classifyStation, hne, hw']

theorem stepStation_lookup_none (a : Bool) (cache : JMap) (s : CycleState) (st : Station)
    (sts : List DeviceStatusResult)
    (h : (processStation a (prevEntryOf cache (toString st.station_id)) st sts).cacheAction
      = none) :
    jLookup (stepStation a cache s st sts).newCache (toString st.station_id) = none := by
  simp only [stepStation]
  rw [h]
  exact jLookup_deleteField_self _ _

theorem stepStation_lookup_some (a : Bool) (cache : JMap) (s : CycleState) (st : Station)
    (sts : List DeviceStatusResult) (e : JVal)
    (h : (processStation a (prevEntryOf cache (toString st.station_id)) st sts).cacheAction
      = some e) :
    jLookup (stepStation a cache s st sts).newCache (toString st.station_id) = some e := by
  simp only [stepStation]
  rw [h]
  exact jLookup_setField_self _ _ _

theorem stepStation_lookup_ne (a : Bool) (cache : JMap) (s : CycleState) (st : Station)
    (sts : List DeviceStatusResult) (k : String) (h : k ≠ toString st.station_id) :
    jLookup (stepStation a cache s st sts).newCache k = jLookup s.newCache k := by
  simp only [stepStation]
  cases (processStation a (prevEntryOf cache (toString st.station_id)) st sts).cacheAction
  · exact jLookup_deleteField_ne _ _ _ h
  · exact jLookup_setField_ne _ _ _ _ h

/-- C1 counterexample: a station whose previous snapshot has
`offline: true`, reported online (`state = 1`) but with a current sensor
failure (`wind`), is classified by the online-with-failures branch — not
`Recovered` — and its snapshot is written, not cleared. -/
theorem recovered_with_failures_cex :
    classifyStation (JVal.vObj [("offline", JVal.vBool true)]) 1
        [{ device_id := 1, serial := "AR-1", deviceType := "AR", rawStatus := 5,
           sensorStatus := "failure",
           failures := [{ sensor := "wind", reason := "wind failed" }] }]
      = TransitionCategory.NewFailure
    ∧ (processStation true (JVal.vObj [("offline", JVal.vBool true)])
        { station_id := 7, name := "S", state := 1 }
        [{ device_id := 1, serial := "AR-1", deviceType := "AR", rawStatus := 5,
           sensorStatus := "failure",
           failures := [{ sensor := "wind", reason := "wind failed" }] }]).cacheAction.isSome
      = true := by
  decide

/-- C1 (amended): a station whose previous snapshot is offline and whose
current state is online is classified `Recovered` — its cache entry is
deleted and only a recovery alert fires — provided its current failure
set is empty; this covers the cycle where diagnostics were unavailable
(empty decoder output). When the online station carries current failures,
the online-with-failures branch takes precedence instead (see the
counterexample). -/
theorem recovery_clears_snapshot_when_no_failures (alertsOn : Bool) (cache : JMap)
    (s : CycleState) (st : Station) (statuses : List DeviceStatusResult)
    (hwas : wasOfflineOf (prevEntryOf cache (toString st.station_id)) = true)
    (hstate : st.state = 1) (hcf : currentFailuresOf statuses = []) :
    classifyStation (prevEntryOf cache (toString st.station_id)) st.state statuses
      = TransitionCategory.Recovered
    ∧ jLookup (stepStation alertsOn cache s st statuses).newCache (toString st.station_id)
      = none
    ∧ (processStation alertsOn (prevEntryOf cache (toString st.station_id)) st statuses).alerts
      = (if alertsOn then [AlertEvent.recovery] else []) := by
  have hrec := processStation_recovered alertsOn
    (prevEntryOf cache (toString st.station_id)) st statuses hstate hcf hwas
  refine ⟨classify_recovered _ _ _ hstate hcf hwas, ?_, ?_⟩
  · exact stepStation_lookup_none _ _ _ _ _ (by rw [hrec])
  · rw [hrec]

/-- C1 witness: concrete recovery — previously offline, now online, no
diagnostics this cycle. -/
theorem recovery_clears_snapshot_when_no_failures_witness :
    classifyStation
        (prevEntryOf [("7", JVal.vObj [("offline", JVal.vBool true)])]
          (toString ({ station_id := 7, name := "S", state := 1 } : Station).station_id))
        ({ station_id := 7, name := "S", state := 1 } : Station).state []
      = TransitionCategory.Recovered
    ∧ jLookup (stepStation true [("7", JVal.vObj [("offline", JVal.vBool true)])]
        (initialCycleState [("7", JVal.vObj [("offline", JVal.vBool true)])])
        { station_id := 7, name := "S", state := 1 } []).newCache
        (toString ({ station_id := 7, name := "S", state := 1 } : Station).station_id)
      = none
    ∧ (processStation true
        (prevEntryOf [("7", JVal.vObj [("offline", JVal.vBool true)])]
          (toString ({ station_id := 7, name := "S", state := 1 } : Station).station_id))
        { station_id := 7, name := "S", state := 1 } []).alerts
      = (if true then [AlertEvent.recovery] else []) :=
  recovery_clears_snapshot_when_no_failures true
    [("7", JVal.vObj [("offline", JVal.vBool true)])]
    (initialCycleState [("7", JVal.vObj [("offline", JVal.vBool true)])])
    { station_id := 7, name := "S", state := 1 } [] (by decide) (by decide) (by decide)

/-- C3 counterexample: with the wired `loadCacheFor` (which returns the
parsed cache unchanged), a previous entry that is the bare legacy string
`"offline"` yields a falsy `wasOffline` — the station is *not* treated as
having been offline, and an online cycle classifies `StillHealthy`, not
`Recovered`. -/
theorem legacy_offline_string_cex :
    wasOfflineOf (prevEntryOf (loadCachePure [("1", JVal.vStr "offline")]) "1") = false
    ∧ ¬classifyStation (prevEntryOf (loadCachePure [("1", JVal.vStr "offline")]) "1") 1 []
        = TransitionCategory.Recovered := by
  decide

/-- C3 (amended): the cache loader of the current wiring performs no
legacy normalization — the parsed value is returned unchanged — so a
station whose previous cache value is the legacy string `"offline"` has
`wasOffline` falsy (`("offline").offline` is `undefined`) and is treated
as not having been offline last run: online with no diagnostics it is
classified `StillHealthy` rather than `Recovered`. -/
theorem load_cache_legacy_string_not_offline (raw : JMap) (id : String)
    (h : jLookup raw id = some (JVal.vStr "offline")) :
    loadCachePure raw = raw
    ∧ wasOfflineOf (prevEntryOf (loadCachePure raw) id) = false
    ∧ classifyStation (prevEntryOf (loadCachePure raw) id) 1 []
      = TransitionCategory.StillHealthy := by
  have hpe : prevEntryOf (loadCachePure raw) id = JVal.vStr "offline" := by
    simp [prevEntryOf, jsIndex, loadCachePure, h, truthy]
  refine ⟨rfl, ?_, ?_⟩
  · rw [hpe]
    rfl
  · rw [hpe]
    decide

/-- C3 witness: the amended statement at a concrete one-entry cache. -/
theorem load_cache_legacy_string_not_offline_witness :
    loadCachePure [("12", JVal.vStr "offline")] = [("12", JVal.vStr "offline")]
    ∧ wasOfflineOf (prevEntryOf (loadCachePure [("12", JVal.vStr "offline")]) "12") = false
    ∧ classifyStation (prevEntryOf (loadCachePure [("12", JVal.vStr "offline")]) "12") 1 []
      = TransitionCategory.StillHealthy :=
  load_cache_legacy_string_not_offline [("12", JVal.vStr "offline")] "12" rfl

/-- C4 counterexample: a written cache entry does not satisfy the spec's
`StationSnapshot` shape `{offline: boolean, failures: set<string>}` — the
failure list lives under per-device serial keys, and there is no
top-level `failures` array. -/
theorem cache_entry_shape_cex :
    specStationSnapshotShape
        (buildStationCacheEntry
          [{ device_id := 1, serial := "AR-1", deviceType := "AR", rawStatus := 5,
             sensorStatus := "failure",
             failures := [{ sensor := "wind", reason := "w" }] }] false)
      = false := by
  decide

/-- C4 (amended): every cache entry written for a processed station goes
through `buildStationCacheEntry` (or the entry is deleted), and such an
entry is always a structured object — never the legacy scalar string —
with field `offline` holding the boolean liveness flag and one sub-object
per device serial carrying that device's `failures` array. -/
theorem cache_entry_structured_object_form (statuses : List DeviceStatusResult) (b : Bool)
    (hser : ∀ ds ∈ statuses, ¬ds.serial = "offline")
    (hnd : (statuses.map (fun ds => ds.serial)).Nodup) :
    buildStationCacheEntry statuses b
      = JVal.vObj (("offline", JVal.vBool b)
          :: statuses.map (fun ds => (ds.serial, deviceCacheObj ds)))
    ∧ (∀ s, ¬buildStationCacheEntry statuses b = JVal.vStr s)
    ∧ getField (buildStationCacheEntry statuses b) "offline" = JVal.vBool b
    ∧ ∀ (a : Bool) (pe : JVal) (st : Station),
        (processStation a pe st statuses).cacheAction = none
        ∨ ∃ bb, (processStation a pe st statuses).cacheAction
            = some (buildStationCacheEntry statuses bb) := by
  have he := buildEntry_eq statuses b hser hnd
  refine ⟨he, ?_, getField_buildEntry_offline statuses b hser hnd, ?_⟩
  · intro s hc
    rw [he] at hc
    exact absurd hc (by simp)
  · intro a pe st
    by_cases h1 : st.state = 1
    · by_cases h2 : currentFailuresOf statuses = []
      · by_cases h3 : wasOfflineOf pe = true
        · left
          rw [processStation_recovered a pe st statuses h1 h2 h3]
        · right
          exact ⟨false, by rw [processStation_healthy a pe st statuses h1 h2
            (by simpa using h3)]⟩
      · right
        exact ⟨false, by rw [processStation_online_failures a pe st statuses h1 h2]⟩
    · right
      exact ⟨true, by rw [processStation_offline a pe st statuses h1]⟩

/-- C4 witness: the amended statement at a concrete one-device status
list. -/
theorem cache_entry_structured_object_form_witness :
    buildStationCacheEntry
        [{ device_id := 2, serial := "SK-9", deviceType := "SK", rawStatus := 4,
           sensorStatus := "failure",
           failures := [{ sensor := "precip", reason := "p" }] }] true
      = JVal.vObj (("offline", JVal.vBool true)
          :: ([{ device_id := 2, serial := "SK-9", deviceType := "SK", rawStatus := 4,
                 sensorStatus := "failure",
                 failures := [{ sensor := "precip", reason := "p" }] }]
              : List DeviceStatusResult).map (fun ds => (ds.serial, deviceCacheObj ds)))
    ∧ (∀ s, ¬buildStationCacheEntry
        [{ device_id := 2, serial := "SK-9", deviceType := "SK", rawStatus := 4,
           sensorStatus := "failure",
           failures := [{ sensor := "precip", reason := "p" }] }] true = JVal.vStr s)
    ∧ getField (buildStationCacheEntry
        [{ device_id := 2, serial := "SK-9", deviceType := "SK", rawStatus := 4,
           sensorStatus := "failure",
           failures := [{ sensor := "precip", reason := "p" }] }] true) "offline"
      = JVal.vBool true
    ∧ ∀ (a : Bool) (pe : JVal) (st : Station),
        (processStation a pe st
          [{ device_id := 2, serial := "SK-9", deviceType := "SK", rawStatus := 4,
             sensorStatus := "failure",
             failures := [{ sensor := "precip", reason := "p" }] }]).cacheAction = none
        ∨ ∃ bb, (processStation a pe st
            [{ device_id := 2, serial := "SK-9", deviceType := "SK", rawStatus := 4,
               sensorStatus := "failure",
               failures := [{ sensor := "precip", reason := "p" }] }]).cacheAction
            = some (buildStationCacheEntry
                [{ device_id := 2, serial := "SK-9", deviceType := "SK", rawStatus := 4,
                   sensorStatus := "failure",
                   failures := [{ sensor := "precip", reason := "p" }] }] bb) :=
  cache_entry_structured_object_form
    [{ device_id := 2, serial := "SK-9", deviceType := "SK", rawStatus := 4,
       sensorStatus := "failure",
       failures := [{ sensor := "precip", reason := "p" }] }] true
    (by decide) (by decide)

/-- C2: a station reported with `state != 1` is classified by the offline
branches only (`NewlyOffline` or `StillOffline`), never by the
sensor-failure branches — no sensor-failure alert is emitted for it,
whatever its diagnostics — and its cache entry is written with the
offline flag set, recording exactly the current failure set (readable
back as the next cycle's previous-failure list). -/
theorem offline_station_never_sensor_alerted (alertsOn : Bool) (pe : JVal) (st : Station)
    (statuses : List DeviceStatusResult)
    (hoff : ¬st.state = 1)
    (hinv : ∀ ds ∈ statuses, ¬ds.sensorStatus = "failure" → ds.failures = [])
    (hser : ∀ ds ∈ statuses, ¬ds.serial = "offline" ∧ ¬ds.serial = "failures")
    (hnd : (statuses.map (fun ds => ds.serial)).Nodup) :
    (classifyStation pe st.state statuses = TransitionCategory.NewlyOffline
      ∨ classifyStation pe st.state statuses = TransitionCategory.StillOffline)
    ∧ (∀ e ∈ (processStation alertsOn pe st statuses).alerts,
        ∀ serial sensors, ¬e = AlertEvent.sensorFailure serial sensors)
    ∧ (processStation alertsOn pe st statuses).cacheAction
      = some (buildStationCacheEntry statuses true)
    ∧ oldFailuresOf (buildStationCacheEntry statuses true)
      = (currentFailuresOf statuses).map JVal.vStr := by
  have hps := processStation_offline alertsOn pe st statuses hoff
  have hcl := classify_offline pe st.state statuses hoff
  refine ⟨?_, ?_, ?_, ?_⟩
  · rw [hcl]
    cases hw : wasOfflineOf pe
    · left
      simp
    · right
      simp
  · intro e he serial sensors
    rw [hps] at he
    by_cases hc : (!wasOfflineOf pe && alertsOn) = true
    · rw [if_pos hc] at he
      simp only [List.mem_singleton] at he
      subst he
      simp
    · rw [if_neg hc] at he
      simp at he
  · rw [hps]
  · rw [oldFailuresOf_buildEntry statuses true hser hnd,
        flatMap_failures_of_inv statuses hinv]

/-- C2 witness: a concrete offline station with one failing device. -/
theorem offline_station_never_sensor_alerted_witness :
    (classifyStation (JVal.vObj []) ({ station_id := 3, name := "S", state := 0 } : Station).state
        [{ device_id := 1, serial := "AR-1", deviceType := "AR", rawStatus := 5,
           sensorStatus := "failure",
           failures := [{ sensor := "wind", reason := "w" }] }]
        = TransitionCategory.NewlyOffline
      ∨ classifyStation (JVal.vObj []) ({ station_id := 3, name := "S", state := 0 } : Station).state
        [{ device_id := 1, serial := "AR-1", deviceType := "AR", rawStatus := 5,
           sensorStatus := "failure",
           failures := [{ sensor := "wind", reason := "w" }] }]
        = TransitionCategory.StillOffline)
    ∧ (∀ e ∈ (processStation true (JVal.vObj [])
          { station_id := 3, name := "S", state := 0 }
          [{ device_id := 1, serial := "AR-1", deviceType := "AR", rawStatus := 5,
             sensorStatus := "failure",
             failures := [{ sensor := "wind", reason := "w" }] }]).alerts,
        ∀ serial sensors, ¬e = AlertEvent.sensorFailure serial sensors)
    ∧ (processStation true (JVal.vObj [])
        { station_id := 3, name := "S", state := 0 }
        [{ device_id := 1, serial := "AR-1", deviceType := "AR", rawStatus := 5,
           sensorStatus := "failure",
           failures := [{ sensor := "wind", reason := "w" }] }]).cacheAction
      = some (buildStationCacheEntry
          [{ device_id := 1, serial := "AR-1", deviceType := "AR", rawStatus := 5,
             sensorStatus := "failure",
             failures := [{ sensor := "wind", reason := "w" }] }] true)
    ∧ oldFailuresOf (buildStationCacheEntry
        [{ device_id := 1, serial := "AR-1", deviceType := "AR", rawStatus := 5,
           sensorStatus := "failure",
           failures := [{ sensor := "wind", reason := "w" }] }] true)
      = (currentFailuresOf
          [{ device_id := 1, serial := "AR-1", deviceType := "AR", rawStatus := 5,
             sensorStatus := "failure",
             failures := [{ sensor := "wind", reason := "w" }] }]).map JVal.vStr :=
  offline_station_never_sensor_alerted true (JVal.vObj [])
    { station_id := 3, name := "S", state := 0 }
    [{ device_id := 1, serial := "AR-1", deviceType := "AR", rawStatus := 5,
       sensorStatus := "failure",
       failures := [{ sensor := "wind", reason := "w" }] }]
    (by decide) (by decide) (by decide) (by decide)

/-- C5: for an online station with a non-empty current failure set and
alerting enabled, the set of sensors carried by the emitted sensor-failure
alerts is exactly the current failure set minus the previous snapshot's
failure list (membership-wise): already-known failing sensors are not
re-alerted, and when the difference is empty no alert fires at all. -/
theorem new_sensor_alerts_are_set_difference (pe : JVal) (st : Station)
    (statuses : List DeviceStatusResult)
    (hstate : st.state = 1) (hcf : ¬currentFailuresOf statuses = [])
    (hnd : ((failuresOnlyOf statuses).map (fun ds => ds.serial)).Nodup) :
    (∀ x : String,
      x ∈ alertedSensorsOf (processStation true pe st statuses).alerts
        ↔ (x ∈ currentFailuresOf statuses ∧ ¬includesStr (oldFailuresOf pe) x = true))
    ∧ (newFailuresOf pe statuses = [] → (processStation true pe st statuses).alerts = []) := by
  have hps := processStation_online_failures true pe st statuses hstate hcf
  constructor
  · intro x
    rw [hps]
    by_cases hnf : newFailuresOf pe statuses = []
    · rw [if_neg (by simp [hnf])]
      simp only [alertedSensorsOf, List.flatMap_nil, List.not_mem_nil, false_iff]
      intro hcontra
      have hxnf : x ∈ newFailuresOf pe statuses := by
        unfold newFailuresOf
        rw [List.mem_filter]
        exact ⟨hcontra.1, by simp [hcontra.2]⟩
      rw [hnf] at hxnf
      simp at hxnf
    · rw [if_pos (by simp [isEmpty_false_of_ne_nil _ hnf])]
      have halert : alertedSensorsOf
          ((deviceFailuresMapOf (failuresOnlyOf statuses) (newFailuresOf pe statuses)).map
            (fun p => AlertEvent.sensorFailure p.1 p.2))
          = (deviceFailuresMapOf (failuresOnlyOf statuses)
              (newFailuresOf pe statuses)).flatMap (fun p => p.2) := by
        unfold alertedSensorsOf
        rw [List.flatMap_map]
      rw [halert, dfm_flatten _ _ hnd, flatMap_filter_comm]
      rw [List.mem_filter]
      constructor
      · rintro ⟨hxc, hxnf⟩
        have hxnf' : x ∈ newFailuresOf pe statuses := List.elem_iff.mp hxnf
        unfold newFailuresOf at hxnf'
        rw [List.mem_filter] at hxnf'
        exact ⟨hxc, by simpa using hxnf'.2⟩
      · rintro ⟨hxc, hxold⟩
        refine ⟨hxc, List.elem_iff.mpr ?_⟩
        unfold newFailuresOf
        rw [List.mem_filter]
        exact ⟨hxc, by simpa using hxold⟩
  · intro hnf
    rw [hps, if_neg (by simp [hnf])]

/-- C5 witness: one failing device with sensors `wind` and `rh`, where
`rh` was already failing last run — only `wind` is alerted. -/
theorem new_sensor_alerts_are_set_difference_witness :
    (∀ x : String,
      x ∈ alertedSensorsOf (processStation true
          (JVal.vObj [("offline", JVal.vBool false),
                      ("failures", JVal.vArr [JVal.vStr "rh"])])
          { station_id := 5, name := "S", state := 1 }
          [{ device_id := 1, serial := "AR-1", deviceType := "AR", rawStatus := 5,
             sensorStatus := "failure",
             failures := [{ sensor := "wind", reason := "w" },
                          { sensor := "rh", reason := "r" }] }]).alerts
        ↔ (x ∈ currentFailuresOf
              [{ device_id := 1, serial := "AR-1", deviceType := "AR", rawStatus := 5,
                 sensorStatus := "failure",
                 failures := [{ sensor := "wind", reason := "w" },
                              { sensor := "rh", reason := "r" }] }]
            ∧ ¬includesStr (oldFailuresOf
                (JVal.vObj [("offline", JVal.vBool false),
                            ("failures", JVal.vArr [JVal.vStr "rh"])])) x = true))
    ∧ (newFailuresOf
          (JVal.vObj [("offline", JVal.vBool false),
                      ("failures", JVal.vArr [JVal.vStr "rh"])])
          [{ device_id := 1, serial := "AR-1", deviceType := "AR", rawStatus := 5,
             sensorStatus := "failure",
             failures := [{ sensor := "wind", reason := "w" },
                          { sensor := "rh", reason := "r" }] }] = []
        → (processStation true
            (JVal.vObj [("offline", JVal.vBool false),
                        ("failures", JVal.vArr [JVal.vStr "rh"])])
            { station_id := 5, name := "S", state := 1 }
            [{ device_id := 1, serial := "AR-1", deviceType := "AR", rawStatus := 5,
               sensorStatus := "failure",
               failures := [{ sensor := "wind", reason := "w" },
                            { sensor := "rh", reason := "r" }] }]).alerts = []) :=
  new_sensor_alerts_are_set_difference
    (JVal.vObj [("offline", JVal.vBool false), ("failures", JVal.vArr [JVal.vStr "rh"])])
    { station_id := 5, name := "S", state := 1 }
    [{ device_id := 1, serial := "AR-1", deviceType := "AR", rawStatus := 5,
       sensorStatus := "failure",
       failures := [{ sensor := "wind", reason := "w" },
                    { sensor := "rh", reason := "r" }] }]
    (by decide) (by decide) (by decide)

theorem truthy_buildEntry (sts : List DeviceStatusResult) (b : Bool) :
    truthy (buildStationCacheEntry sts b) = true := rfl

theorem prevEntryOf_after_write (a : Bool) (cache : JMap) (s : CycleState) (st : Station)
    (sts : List DeviceStatusResult) (e : JVal)
    (h : (processStation a (prevEntryOf cache (toString st.station_id)) st sts).cacheAction
      = some e) (ht : truthy e = true) :
    prevEntryOf (stepStation a cache s st sts).newCache (toString st.station_id) = e := by
  have hl := stepStation_lookup_some a cache s st sts e h
  unfold prevEntryOf jsIndex
  rw [hl]
  simp [ht]

theorem prevEntryOf_after_delete (a : Bool) (cache : JMap) (s : CycleState) (st : Station)
    (sts : List DeviceStatusResult)
    (h : (processStation a (prevEntryOf cache (toString st.station_id)) st sts).cacheAction
      = none) :
    prevEntryOf (stepStation a cache s st sts).newCache (toString st.station_id)
      = JVal.vObj [] := by
  have hl := stepStation_lookup_none a cache s st sts h
  unfold prevEntryOf jsIndex
  rw [hl]
  simp [truthy]

theorem newFailures_of_own_entry (statuses : List DeviceStatusResult) (b : Bool)
    (hser : ∀ ds ∈ statuses, ¬ds.serial = "offline" ∧ ¬ds.serial = "failures")
    (hnd : (statuses.map (fun ds => ds.serial)).Nodup) :
    newFailuresOf (buildStationCacheEntry statuses b) statuses = [] := by
  unfold newFailuresOf
  rw [List.filter_eq_nil_iff]
  intro x hx
  rw [oldFailuresOf_buildEntry statuses b hser hnd]
  have hmem := mem_currentFailures_vStr_mem statuses x hx
  have hinc : includesStr
      (statuses.flatMap (fun ds => ds.failures.map (fun f => JVal.vStr f.sensor))) x = true :=
    (includesStr_iff _ _).mpr hmem
  simp [hinc]

/-- C6: running the station step a second time with identical current
data, against the cache image the first run produced, classifies the
station `StillHealthy` or `StillOffline` and emits no alert at all — no
`NewFailure`, `NewlyOffline` or `Recovered` event fires twice for the
same unchanged condition. -/
theorem transition_step_idempotent (alertsOn : Bool) (cache : JMap) (st : Station)
    (statuses : List DeviceStatusResult)
    (hser : ∀ ds ∈ statuses, ¬ds.serial = "offline" ∧ ¬ds.serial = "failures")
    (hnd : (statuses.map (fun ds => ds.serial)).Nodup) :
    (classifyStation
        (prevEntryOf (nextCacheOf alertsOn cache st statuses) (toString st.station_id))
        st.state statuses = TransitionCategory.StillHealthy
      ∨ classifyStation
          (prevEntryOf (nextCacheOf alertsOn cache st statuses) (toString st.station_id))
          st.state statuses = TransitionCategory.StillOffline)
    ∧ (processStation alertsOn
        (prevEntryOf (nextCacheOf alertsOn cache st statuses) (toString st.station_id))
        st statuses).alerts = [] := by
  have hser1 : ∀ ds ∈ statuses, ¬ds.serial = "offline" := fun ds hds => (hser ds hds).1
  by_cases h1 : st.state = 1
  · by_cases h2 : currentFailuresOf statuses = []
    · by_cases h3 : wasOfflineOf (prevEntryOf cache (toString st.station_id)) = true
      · -- first run recovered: entry deleted, second run sees an empty entry
        have hpe : prevEntryOf (nextCacheOf alertsOn cache st statuses)
            (toString st.station_id) = JVal.vObj [] :=
          prevEntryOf_after_delete alertsOn cache (initialCycleState cache) st statuses
            (by rw [processStation_recovered alertsOn _ st statuses h1 h2 h3])
        rw [hpe]
        refine ⟨Or.inl (classify_healthy (JVal.vObj []) st.state statuses h1 h2 rfl), ?_⟩
        rw [processStation_healthy alertsOn (JVal.vObj []) st statuses h1 h2 rfl]
      · -- first run healthy online: entry rewritten with offline=false
        have h3' : wasOfflineOf (prevEntryOf cache (toString st.station_id)) = false := by
          simpa using h3
        have hpe : prevEntryOf (nextCacheOf alertsOn cache st statuses)
            (toString st.station_id) = buildStationCacheEntry statuses false :=
          prevEntryOf_after_write alertsOn cache (initialCycleState cache) st statuses _
            (by rw [processStation_healthy alertsOn _ st statuses h1 h2 h3'])
            (truthy_buildEntry _ _)
        have hw2 : wasOfflineOf (buildStationCacheEntry statuses false) = false := by
          unfold wasOfflineOf
          rw [getField_buildEntry_offline statuses false hser1 hnd]
          rfl
        rw [hpe]
        refine ⟨Or.inl (classify_healthy _ _ _ h1 h2 hw2), ?_⟩
        rw [processStation_healthy alertsOn _ st statuses h1 h2 hw2]
    · -- first run online with failures: entry rewritten; all current
      -- sensors are already recorded, so the second run has no new ones
      have hpe : prevEntryOf (nextCacheOf alertsOn cache st statuses)
          (toString st.station_id) = buildStationCacheEntry statuses false :=
        prevEntryOf_after_write alertsOn cache (initialCycleState cache) st statuses _
          (by rw [processStation_online_failures alertsOn _ st statuses h1 h2])
          (truthy_buildEntry _ _)
      have hnf := newFailures_of_own_entry statuses false hser hnd
      rw [hpe]
      constructor
      · left
        rw [classify_online_failures _ _ _ h1 h2, hnf]
        rfl
      · rw [processStation_online_failures alertsOn _ st statuses h1 h2, hnf]
        simp
  · -- offline: entry rewritten with offline=true, second run still offline
    have hpe : prevEntryOf (nextCacheOf alertsOn cache st statuses)
        (toString st.station_id) = buildStationCacheEntry statuses true :=
      prevEntryOf_after_write alertsOn cache (initialCycleState cache) st statuses _
        (by rw [processStation_offline alertsOn _ st statuses h1])
        (truthy_buildEntry _ _)
    have hw2 : wasOfflineOf (buildStationCacheEntry statuses true) = true := by
      unfold wasOfflineOf
      rw [getField_buildEntry_offline statuses true hser1 hnd]
      rfl
    rw [hpe]
    constructor
    · right
      rw [classify_offline _ _ _ h1, hw2]
      rfl
    · rw [processStation_offline alertsOn _ st statuses h1, hw2]
      simp

/-- C6 witness: one online station with a persistent failing sensor — the
second run is `StillHealthy` with no alerts. -/
theorem transition_step_idempotent_witness :
    (classifyStation
        (prevEntryOf (nextCacheOf true []
          { station_id := 9, name := "S", state := 1 }
          [{ device_id := 1, serial := "AR-1", deviceType := "AR", rawStatus := 5,
             sensorStatus := "failure",
             failures := [{ sensor := "wind", reason := "w" }] }])
          (toString ({ station_id := 9, name := "S", state := 1 } : Station).station_id))
        ({ station_id := 9, name := "S", state := 1 } : Station).state
        [{ device_id := 1, serial := "AR-1", deviceType := "AR", rawStatus := 5,
           sensorStatus := "failure",
           failures := [{ sensor := "wind", reason := "w" }] }]
        = TransitionCategory.StillHealthy
      ∨ classifyStation
          (prevEntryOf (nextCacheOf true []
            { station_id := 9, name := "S", state := 1 }
            [{ device_id := 1, serial := "AR-1", deviceType := "AR", rawStatus := 5,
               sensorStatus := "failure",
               failures := [{ sensor := "wind", reason := "w" }] }])
            (toString ({ station_id := 9, name := "S", state := 1 } : Station).station_id))
          ({ station_id := 9, name := "S", state := 1 } : Station).state
          [{ device_id := 1, serial := "AR-1", deviceType := "AR", rawStatus := 5,
             sensorStatus := "failure",
             failures := [{ sensor := "wind", reason := "w" }] }]
          = TransitionCategory.StillOffline)
    ∧ (processStation true
        (prevEntryOf (nextCacheOf true []
          { station_id := 9, name := "S", state := 1 }
          [{ device_id := 1, serial := "AR-1", deviceType := "AR", rawStatus := 5,
             sensorStatus := "failure",
             failures := [{ sensor := "wind", reason := "w" }] }])
          (toString ({ station_id := 9, name := "S", state := 1 } : Station).station_id))
        { station_id := 9, name := "S", state := 1 }
        [{ device_id := 1, serial := "AR-1", deviceType := "AR", rawStatus := 5,
           sensorStatus := "failure",
           failures := [{ sensor := "wind", reason := "w" }] }]).alerts = [] :=
  transition_step_idempotent true []
    { station_id := 9, name := "S", state := 1 }
    [{ device_id := 1, serial := "AR-1", deviceType := "AR", rawStatus := 5,
       sensorStatus := "failure",
       failures := [{ sensor := "wind", reason := "w" }] }]
    (by decide) (by decide)

/-- C7: every decoder result has a non-empty `failures` list only when
its classification is `failure`; each entry stems from an
`error`-severity flag definition of that device's type matching the raw
status by bitwise AND; and a device classified `warning` — or one whose
device type has no registry entry — carries zero failures. -/
theorem decoder_failures_only_error_flags (sensors : Registry) (devices : List RawDevice)
    (r : DeviceStatusResult) (hr : r ∈ processDevices sensors devices) :
    (¬r.failures = [] → r.sensorStatus = "failure")
    ∧ (∀ f ∈ r.failures, ∃ d ∈ sensors r.deviceType, f.sensor = d.label
        ∧ ∃ fl ∈ d.flags, fl.ftype = "error" ∧ hasSensorError r.rawStatus fl.flag = true)
    ∧ (r.sensorStatus = "warning" → r.failures = [])
    ∧ (sensors r.deviceType = [] → r.failures = []) := by
  unfold processDevices at hr
  obtain ⟨device, _, hre⟩ := List.mem_map.mp hr
  subst hre
  simp only []
  by_cases hfs : (findStatus sensors device.sensor_status
      (deviceTypeOf device.serial_number) == "failure") = true
  · refine ⟨fun _ => by simpa using hfs, ?_, ?_, ?_⟩
    · intro f hf
      rw [if_pos hfs] at hf
      obtain ⟨d, hd, hfd⟩ := List.mem_flatMap.mp hf
      obtain ⟨fl, hfl, hfe⟩ := List.mem_map.mp hfd
      rw [List.mem_filter] at hfl
      refine ⟨d, hd, ?_, fl, hfl.1, ?_, ?_⟩
      · rw [← hfe]
      · exact beq_iff_eq.mp (Bool.and_elim_left hfl.2)
      · exact Bool.and_elim_right hfl.2
    · intro hw
      rw [if_pos hfs]
      have : findStatus sensors device.sensor_status (deviceTypeOf device.serial_number)
          = "failure" := beq_iff_eq.mp hfs
      rw [this] at hw
      simp at hw
    · intro hempty
      rw [if_pos hfs, hempty]
      rfl
  · refine ⟨?_, ?_, ?_, ?_⟩
    · intro hne
      rw [if_neg hfs] at hne
      simp at hne
    · intro f hf
      rw [if_neg hfs] at hf
      simp at hf
    · intro _
      rw [if_neg hfs]
    · intro _
      rw [if_neg hfs]

/-- C7 witness: a one-sensor registry for device type `AR` with one
`error`-severity flag, and one matching device. -/
theorem decoder_failures_only_error_flags_witness :
    (¬({ device_id := 1, serial := "AR-1", deviceType := "AR", rawStatus := 5,
         sensorStatus := "failure",
         failures := [{ sensor := "wind", reason := "wind failed" }] }
        : DeviceStatusResult).failures = []
      → ({ device_id := 1, serial := "AR-1", deviceType := "AR", rawStatus := 5,
           sensorStatus := "failure",
           failures := [{ sensor := "wind", reason := "wind failed" }] }
          : DeviceStatusResult).sensorStatus = "failure")
    ∧ (∀ f ∈ ({ device_id := 1, serial := "AR-1", deviceType := "AR", rawStatus := 5,
                sensorStatus := "failure",
                failures := [{ sensor := "wind", reason := "wind failed" }] }
            : DeviceStatusResult).failures,
        ∃ d ∈ (fun dt => if dt = "AR" then
                  [{ label := "wind",
                     flags := [{ flag := 1, ftype := "error",
                                 failedText := "wind failed" }] }]
                else ([] : List SensorDef))
            ({ device_id := 1, serial := "AR-1", deviceType := "AR", rawStatus := 5,
               sensorStatus := "failure",
               failures := [{ sensor := "wind", reason := "wind failed" }] }
              : DeviceStatusResult).deviceType,
          f.sensor = d.label
          ∧ ∃ fl ∈ d.flags, fl.ftype = "error"
              ∧ hasSensorError ({ device_id := 1, serial := "AR-1", deviceType := "AR",
                                  rawStatus := 5, sensorStatus := "failure",
                                  failures := [{ sensor := "wind",
                                                 reason := "wind failed" }] }
                  : DeviceStatusResult).rawStatus fl.flag = true)
    ∧ (({ device_id := 1, serial := "AR-1", deviceType := "AR", rawStatus := 5,
          sensorStatus := "failure",
          failures := [{ sensor := "wind", reason := "wind failed" }] }
         : DeviceStatusResult).sensorStatus = "warning"
        → ({ device_id := 1, serial := "AR-1", deviceType := "AR", rawStatus := 5,
             sensorStatus := "failure",
             failures := [{ sensor := "wind", reason := "wind failed" }] }
            : DeviceStatusResult).failures = [])
    ∧ ((fun dt => if dt = "AR" then
            [{ label := "wind",
               flags := [{ flag := 1, ftype := "error", failedText := "wind failed" }] }]
          else ([] : List SensorDef))
          ({ device_id := 1, serial := "AR-1", deviceType := "AR", rawStatus := 5,
             sensorStatus := "failure",
             failures := [{ sensor := "wind", reason := "wind failed" }] }
            : DeviceStatusResult).deviceType = []
        → ({ device_id := 1, serial := "AR-1", deviceType := "AR", rawStatus := 5,
             sensorStatus := "failure",
             failures := [{ sensor := "wind", reason := "wind failed" }] }
            : DeviceStatusResult).failures = []) :=
  decoder_failures_only_error_flags
    (fun dt => if dt = "AR" then
        [{ label := "wind",
           flags := [{ flag := 1, ftype := "error", failedText := "wind failed" }] }]
      else ([] : List SensorDef))
    [{ device_id := 1, serial_number := "AR-1", sensor_status := 5 }]
    { device_id := 1, serial := "AR-1", deviceType := "AR", rawStatus := 5,
      sensorStatus := "failure",
      failures := [{ sensor := "wind", reason := "wind failed" }] }
    (by decide)

theorem foldl_newCache_frame (a : Bool) (cache : JMap)
    (stations : List (Station × List DeviceStatusResult)) (s : CycleState) (k : String)
    (h : ∀ p ∈ stations, ¬toString p.1.station_id = k) :
    jLookup ((stations.foldl (fun s p => stepStation a cache s p.1 p.2) s)).newCache k
      = jLookup s.newCache k := by
  induction stations generalizing s with
  | nil => rfl
  | cons p stations ih =>
    rw [List.foldl_cons, ih _ (fun q hq => h q (List.mem_cons_of_mem _ hq))]
    exact stepStation_lookup_ne a cache s p.1 p.2 k
      (fun he => h p (List.mem_cons_self _ _) he.symm)

/-- C9: a station id present in the previous cache but absent from the
cycle's station list keeps exactly its previous entry in the cache image
written back at the end of the account's processing: the new image starts
as a copy of the old one and only listed station ids are written or
deleted. -/
theorem unlisted_station_cache_preserved (alertsOn : Bool) (cache : JMap)
    (stations : List (Station × List DeviceStatusResult)) (id : String)
    (h : ∀ p ∈ stations, ¬toString p.1.station_id = id) :
    jLookup (processUserPure alertsOn cache stations).newCache id = jLookup cache id := by
  unfold processUserPure
  rw [foldl_newCache_frame alertsOn cache stations (initialCycleState cache) id h]
  rfl

/-- C9 witness: a cached offline station absent from the fetched list is
left untouched by a cycle that processes a different station. -/
theorem unlisted_station_cache_preserved_witness :
    jLookup (processUserPure true [("42", JVal.vObj [("offline", JVal.vBool true)])]
        [({ station_id := 7, name := "S", state := 1 }, [])]).newCache "42"
      = jLookup [("42", JVal.vObj [("offline", JVal.vBool true)])] "42" :=
  unlisted_station_cache_preserved true [("42", JVal.vObj [("offline", JVal.vBool true)])]
    [({ station_id := 7, name := "S", state := 1 }, [])] "42" (by decide)

theorem processStation_countsSensors (a : Bool) (pe : JVal) (st : Station)
    (sts : List DeviceStatusResult) :
    (processStation a pe st sts).countsSensors
      = (if (st.state == 1) = true then [] else currentFailuresOf sts) := by
  by_cases h1 : st.state = 1
  · by_cases h2 : currentFailuresOf sts = []
    · by_cases h3 : wasOfflineOf pe = true
      · rw [processStation_recovered a pe st sts h1 h2 h3]
        simp [h1]
      · rw [processStation_healthy a pe st sts h1 h2 (by simpa using h3)]
        simp [h1]
    · rw [processStation_online_failures a pe st sts h1 h2]
      simp [h1]
  · rw [processStation_offline a pe st sts h1]
    simp [beq_eq_false_iff_ne.mpr h1]

theorem foldl_counts_proj (a : Bool) (cache : JMap)
    (stations : List (Station × List DeviceStatusResult)) (s : CycleState) :
    ((stations.foldl (fun s p => stepStation a cache s p.1 p.2) s)).sensorFailureCounts
      = stations.foldl
          (fun m p => if (p.1.state == 1) = true then m
                      else bumpMany m (currentFailuresOf p.2))
          s.sensorFailureCounts := by
  induction stations generalizing s with
  | nil => rfl
  | cons p stations ih =>
    rw [List.foldl_cons, List.foldl_cons, ih]
    congr 1
    show bumpMany s.sensorFailureCounts
        (processStation a (prevEntryOf cache (toString p.1.station_id)) p.1 p.2).countsSensors
      = _
    rw [processStation_countsSensors]
    by_cases hst : (p.1.state == 1) = true
    · rw [if_pos hst, if_pos hst]
      rfl
    · rw [if_neg hst, if_neg hst]

/-- C10: the per-sensor failure counters of a cycle are bumped only by
stations reported with `state != 1` — inserting an online station
anywhere in the station list leaves the final counter map unchanged, so a
failing sensor on an online station contributes nothing to the failure
metrics. -/
theorem sensor_failure_counts_offline_only (alertsOn : Bool) (cache : JMap)
    (pre post : List (Station × List DeviceStatusResult)) (st : Station)
    (statuses : List DeviceStatusResult) (hon : st.state = 1) :
    (processUserPure alertsOn cache (pre ++ (st, statuses) :: post)).sensorFailureCounts
      = (processUserPure alertsOn cache (pre ++ post)).sensorFailureCounts := by
  unfold processUserPure
  rw [foldl_counts_proj, foldl_counts_proj, List.foldl_append, List.foldl_append,
      List.foldl_cons]
  congr 1
  rw [if_pos (beq_iff_eq.mpr hon)]

/-- C10 witness: one online station with a failing `wind` sensor leaves
the counters equal to those of the empty cycle (all monitored keys at
zero). -/
theorem sensor_failure_counts_offline_only_witness :
    (processUserPure true [] ([] ++ ({ station_id := 7, name := "S", state := 1 },
        [{ device_id := 1, serial := "AR-1", deviceType := "AR", rawStatus := 5,
           sensorStatus := "failure",
           failures := [{ sensor := "wind", reason := "w" }] }]) :: [])).sensorFailureCounts
      = (processUserPure true [] ([] ++ [])).sensorFailureCounts :=
  sensor_failure_counts_offline_only true [] [] []
    { station_id := 7, name := "S", state := 1 }
    [{ device_id := 1, serial := "AR-1", deviceType := "AR", rawStatus := 5,
       sensorStatus := "failure",
       failures := [{ sensor := "wind", reason := "w" }] }]
    (by decide)

theorem jsNumLookup_eq (counts : List (String × Nat)) (k : String) (c : Nat)
    (hnd : (counts.map (fun p => p.1)).Nodup) (hmem : (k, c) ∈ counts) :
    jsNumLookup counts k = c := by
  induction counts with
  | nil => simp at hmem
  | cons p counts ih =>
    rw [List.map_cons] at hnd
    rcases List.mem_cons.mp hmem with he | hm
    · rw [← he]
      simp [jsNumLookup, List.find?_cons]
    · have hk : k ∈ counts.map (fun p => p.1) := List.mem_map.mpr ⟨(k, c), hm, rfl⟩
      have hne : ¬p.1 = k := fun he => (List.nodup_cons.mp hnd).1 (he ▸ hk)
      have htail := ih (List.nodup_cons.mp hnd).2 hm
      unfold jsNumLookup at htail ⊢
      rw [List.find?_cons_of_neg _ (by simpa using hne)]
      exact htail

/-- C8 counterexample: a cycle with one online station that has a failing
sensor emits no metric line mentioning `online_count` at all; what the
batch carries instead is `healthy_count`, and its value is 0 even though
one station is online. -/
theorem metrics_online_count_missing_cex :
    ((cycleMetricLines true []
        [({ station_id := 1, name := "S", state := 1 },
          [{ device_id := 1, serial := "AR-1", deviceType := "AR", rawStatus := 5,
             sensorStatus := "failure",
             failures := [{ sensor := "wind", reason := "w" }] }])] "DEV" 0).all
      (fun l => !(strContainsSub l "online_count"))) = true
    ∧ mkLine "dev" "healthy_count" functionName 0 0
        ∈ cycleMetricLines true []
            [({ station_id := 1, name := "S", state := 1 },
              [{ device_id := 1, serial := "AR-1", deviceType := "AR", rawStatus := 5,
                 sensorStatus := "failure",
                 failures := [{ sensor := "wind", reason := "w" }] }])] "DEV" 0 := by
  decide

/-- C8 (amended): every emitted metric line has the form
`vip.<accountLower>_station_<metricName>.<jobName>,<timestamp>,<value>`,
and the batch carries the healthy count (online stations with no current
failures — in place of the spec's online count), the offline count, the
total station count, one failure-count line per key of the per-sensor
counter map, and the total sensor failure count. -/
theorem metric_lines_format_and_contents (userName : String) (ts : Nat)
    (healthy offline total : Nat) (counts : List (String × Nat))
    (hnd : (counts.map (fun p => p.1)).Nodup) :
    (∀ l ∈ buildMetricLines userName functionName ts healthy offline total counts,
        ∃ m v, l = mkLine (jsToLower userName) m functionName ts v)
    ∧ mkLine (jsToLower userName) "healthy_count" functionName ts healthy
        ∈ buildMetricLines userName functionName ts healthy offline total counts
    ∧ mkLine (jsToLower userName) "offline_count" functionName ts offline
        ∈ buildMetricLines userName functionName ts healthy offline total counts
    ∧ mkLine (jsToLower userName) "total_count" functionName ts total
        ∈ buildMetricLines userName functionName ts healthy offline total counts
    ∧ mkLine (jsToLower userName) "total_sensor_failure_count" functionName ts
          ((counts.map (fun p => p.2)).foldl (fun a b => a + b) 0)
        ∈ buildMetricLines userName functionName ts healthy offline total counts
    ∧ ∀ p ∈ counts,
        mkLine (jsToLower userName) (p.1 ++ "_failure_count") functionName ts p.2
          ∈ buildMetricLines userName functionName ts healthy offline total counts := by
  refine ⟨?_, ?_, ?_, ?_, ?_, ?_⟩
  · intro l hl
    unfold buildMetricLines at hl
    rcases List.mem_append.mp hl with hl | hl
    · rcases List.mem_append.mp hl with hl | hl
      · rcases List.mem_cons.mp hl with he | hl
        · exact ⟨"healthy_count", healthy, he⟩
        · rcases List.mem_cons.mp hl with he | hl
          · exact ⟨"offline_count", offline, he⟩
          · simp at hl
      · obtain ⟨sensor, _, he⟩ := List.mem_map.mp hl
        exact ⟨sensor ++ "_failure_count", jsNumLookup counts sensor, he.symm⟩
    · rcases List.mem_cons.mp hl with he | hl
      · exact ⟨"total_sensor_failure_count",
          (counts.map (fun p => p.2)).foldl (fun a b => a + b) 0, he⟩
      · rcases List.mem_cons.mp hl with he | hl
        · exact ⟨"total_count", total, he⟩
        · simp at hl
  · unfold buildMetricLines
    exact List.mem_append.mpr (Or.inl (List.mem_append.mpr
      (Or.inl (List.mem_cons_self _ _))))
  · unfold buildMetricLines
    exact List.mem_append.mpr (Or.inl (List.mem_append.mpr
      (Or.inl (List.mem_cons_of_mem _ (List.mem_cons_self _ _)))))
  · unfold buildMetricLines
    exact List.mem_append.mpr (Or.inr (List.mem_cons_of_mem _ (List.mem_cons_self _ _)))
  · unfold buildMetricLines
    exact List.mem_append.mpr (Or.inr (List.mem_cons_self _ _))
  · intro p hp
    unfold buildMetricLines
    refine List.mem_append.mpr (Or.inl (List.mem_append.mpr (Or.inr ?_)))
    refine List.mem_map.mpr ⟨p.1, List.mem_map.mpr ⟨p, hp, rfl⟩, ?_⟩
    rw [jsNumLookup_eq counts p.1 p.2 hnd hp]

/-- C8 witness: the amended statement at concrete counter values. -/
theorem metric_lines_format_and_contents_witness :
    (∀ l ∈ buildMetricLines "DEV" functionName 0 1 2 3 [("wind", 4)],
        ∃ m v, l = mkLine (jsToLower "DEV") m functionName 0 v)
    ∧ mkLine (jsToLower "DEV") "healthy_count" functionName 0 1
        ∈ buildMetricLines "DEV" functionName 0 1 2 3 [("wind", 4)]
    ∧ mkLine (jsToLower "DEV") "offline_count" functionName 0 2
        ∈ buildMetricLines "DEV" functionName 0 1 2 3 [("wind", 4)]
    ∧ mkLine (jsToLower "DEV") "total_count" functionName 0 3
        ∈ buildMetricLines "DEV" functionName 0 1 2 3 [("wind", 4)]
    ∧ mkLine (jsToLower "DEV") "total_sensor_failure_count" functionName 0
          (([("wind", 4)].map (fun p => p.2)).foldl (fun a b => a + b) 0)
        ∈ buildMetricLines "DEV" functionName 0 1 2 3 [("wind", 4)]
    ∧ ∀ p ∈ [("wind", 4)],
        mkLine (jsToLower "DEV") (p.1 ++ "_failure_count") functionName 0 p.2
          ∈ buildMetricLines "DEV" functionName 0 1 2 3 [("wind", 4)] :=
  metric_lines_format_and_contents "DEV" 0 1 2 3 [("wind", 4)] (by decide)
